import Mathlib

/-!
Verification of the instrument-control core of `tds.py` (pyTDSserial).

The Python source is shallowly embedded: the serial transport is modelled by a
`Device` that maps each query command to the reply line the instrument would
produce and lists the byte counts seen by successive hardcopy polls; Python
floats are modelled exactly as rationals; every side effect on the serial line
(writes, flushes, reads, sleeps) is recorded in an explicit event trace.
-/

/-- Characters that Python's `str.strip` family and `float`/`int` treat as
whitespace (ASCII subset; the instrument replies are ASCII). -/
def isPyWs (c : Char) : Bool :=
  c = ' ' ∨ c = '\t' ∨ c = '\n' ∨ c = '\r' ∨ c = '\x0b' ∨ c = '\x0c'

/-- Remove leading and trailing whitespace, as Python `float()` / `int()` do
to their argument before parsing. -/
def stripWs (l : List Char) : List Char :=
  ((l.dropWhile isPyWs).reverse.dropWhile isPyWs).reverse

/-- Python `str.rstrip()` : drop trailing whitespace. -/
def pyRstrip (s : String) : String :=
  String.mk (s.data.reverse.dropWhile isPyWs).reverse

/-- Consume an optional leading sign, returning the sign and the rest. -/
def parseSign : List Char → Int × List Char
  | '+' :: r => (1, r)
  | '-' :: r => (-1, r)
  | r => (1, r)

/-- Consume a maximal run of decimal digits. -/
def takeDigits : List Char → List Char × List Char
  | [] => ([], [])
  | c :: cs =>
    if c.isDigit then
      let p := takeDigits cs
      (c :: p.1, p.2)
    else ([], c :: cs)

/-- Numeric value of a digit run. -/
def digitsVal (l : List Char) : Nat :=
  l.foldl (fun a c => a * 10 + (c.toNat - 48)) 0

/-- Exponent digits (after `e`/`E`): optional sign then a nonempty digit run
consuming the whole rest of the input. -/
def pyExpDigits (r : List Char) : Option Int :=
  let sp := parseSign r
  let d := takeDigits sp.2
  if d.1 = [] ∨ d.2 ≠ [] then none else some (sp.1 * (digitsVal d.1 : Int))

/-- Optional exponent part of a Python float literal. -/
def pyExp : List Char → Option Int
  | [] => some 0
  | 'e' :: r => pyExpDigits r
  | 'E' :: r => pyExpDigits r
  | _ => none

/-- Exact value of the decimal literal `sgn * ip.fp * 10^e`, computed with
integer arithmetic only: the mantissa is `sgn * (ip * 10^|fp| + fp)` and the
effective exponent is `e - |fp|`. -/
def sciVal (sgn : Int) (ip fp : List Char) (e : Int) : ℚ :=
  let m : Int := sgn * ((digitsVal ip : Int) * 10 ^ fp.length + (digitsVal fp : Int))
  match e - (fp.length : Int) with
  | Int.ofNat k => mkRat (m * 10 ^ k) 1
  | Int.negSucc k => mkRat m (10 ^ (k + 1))

/-- Assemble the value of a float literal from sign, integer digits, fraction
digits and the (still unparsed) exponent part. -/
def pyFloatFinish (sgn : Int) (ip fp rest : List Char) : Option ℚ :=
  match pyExp rest with
  | none => none
  | some e => some (sciVal sgn ip fp e)

/-- Python `float(s)` on instrument-formatted ASCII: optional surrounding
whitespace, optional sign, digits with an optional fraction part, optional
decimal exponent.  The exotic inputs Python additionally accepts (`inf`,
`nan`, digit-group underscores) never occur on this serial protocol and are
not modelled; the value is kept exact as a rational. -/
def pyFloat (s0 : List Char) : Option ℚ :=
  let s1 := stripWs s0
  let sp := parseSign s1
  let ipr := takeDigits sp.2
  match ipr.2 with
  | '.' :: r =>
    let fpr := takeDigits r
    if ipr.1 = [] ∧ fpr.1 = [] then none
    else pyFloatFinish sp.1 ipr.1 fpr.1 fpr.2
  | rest =>
    if ipr.1 = [] then none
    else pyFloatFinish sp.1 ipr.1 [] rest

/-- Python `float` applied to a `String`. -/
def pyFloatS (s : String) : Option ℚ := pyFloat s.data

/-- Python `int(s)` : optional surrounding whitespace, optional sign, a
nonempty digit run, nothing else. -/
def pyInt (s0 : List Char) : Option Int :=
  let s1 := stripWs s0
  let sp := parseSign s1
  let d := takeDigits sp.2
  if d.1 = [] ∨ d.2 ≠ [] then none else some (sp.1 * (digitsVal d.1 : Int))

/-- Python `int` applied to a `String`. -/
def pyIntS (s : String) : Option Int := pyInt s.data

/-- Python `s.split(sep)` for a single-character separator: the result is
always nonempty, empty fields are kept. -/
def pySplitChar (sep : Char) : List Char → List (List Char)
  | [] => [[]]
  | c :: cs =>
    match pySplitChar sep cs with
    | h :: t => if c = sep then [] :: h :: t else (c :: h) :: t
    | [] => [[]]

/-- Python `s.split(',')` on a `String`, as used on the `CURVE?` reply. -/
def pySplit (s : String) : List String :=
  (pySplitChar ',' s.data).map String.mk

/-- One observable action on the serial connection (or the clock). -/
inductive Event
  | write (s : String)      -- connection.write of these exact bytes
  | flushOut                -- connection.flush()
  | flushIn                 -- connection.flushInput()
  | readLine (s : String)   -- connection.readline() returning these bytes
  | readAvail (n : Nat)     -- connection.read(connection.inWaiting())
  | sleep (n : Nat)         -- time.sleep(n)
deriving DecidableEq, Repr

/-- The instrument on the other end of the serial line.  `resp c` is the line
`readline` returns after the query command `c` has been written; it is a pure
function because the instrument's replies within one session are determined by
the query.  `polls` lists the values successive `inWaiting()` polls observe
during the hardcopy drain: one entry per 1-second polling epoch, and the two
`inWaiting` calls of one loop iteration (the `while` test and the `read`)
happen with no intervening sleep, hence in the same epoch. -/
structure Device where
  resp : String → String
  polls : List Nat

/-- Trace of `Tds.set(command)` : flush, then write `command + "\n"`. -/
def setEvents (c : String) : List Event :=
  [.flushOut, .write (c ++ "\n")]

/-- Trace of `Tds.query(command)` : flush, write `command + "\n"`, read a line. -/
def queryEvents (dev : Device) (c : String) : List Event :=
  [.flushOut, .write (c ++ "\n"), .readLine (dev.resp c)]

/-- Reply text of `Tds.query(command)` (decoded line, newline kept). -/
def query (dev : Device) (c : String) : String := dev.resp c

/-- The `WFMPRE:CH{n}:XINCR?` query string. -/
def xincrQ (ch : String) : String := "WFMPRE:CH" ++ ch ++ ":XINCR?"

/-- The `WFMPRE:CH{n}:YMULT?` query string. -/
def ymultQ (ch : String) : String := "WFMPRE:CH" ++ ch ++ ":YMULT?"

/-- The `WFMPRE:CH{n}:YOFF?` query string. -/
def yoffQ (ch : String) : String := "WFMPRE:CH" ++ ch ++ ":YOFF?"

/-- The `WFMPRE:CH{n}:YZERO?` query string. -/
def yzeroQ (ch : String) : String := "WFMPRE:CH" ++ ch ++ ":YZERO?"

/-- A Python number as stored in the `data` list of a measurement: `int(...)`
codes in raw mode, `float(...)` results in converted mode. -/
inductive PyNum
  | pint (i : Int)
  | pfloat (q : ℚ)
deriving DecidableEq, Repr

/-- The dictionary `Tds.record` returns: the four preamble fields as the
(rstripped) reply strings, the decoded samples and the synthesized time
vector. -/
structure Measurement where
  chn : String
  xincr : String
  ymult : String
  yoff : String
  yzero : String
  data : List PyNum
  t : List ℚ
deriving DecidableEq, Repr

/-- How a Python run of this code can terminate abnormally: `sys.exit(msg)`
(a `SystemExit` carrying the message, process status 1) or an uncaught
`ValueError` from `float(...)` / `int(...)` (process status 1). -/
inductive PyErr
  | systemExit (msg : String)
  | valueError
deriving DecidableEq, Repr

/-- The sample-decoding loop of `Tds.record` : for each comma-separated field,
append `(float(x) - y_off) * y_mult - y_zero` in converted mode or `int(x)`
in raw mode; the first unparseable field raises `ValueError`. -/
def parseData (convert : Bool) (y_off y_mult y_zero : ℚ) :
    List String → Option (List PyNum)
  | [] => some []
  | s :: rest =>
    match convert with
    | true =>
      match pyFloatS s with
      | none => none
      | some c =>
        match parseData convert y_off y_mult y_zero rest with
        | none => none
        | some l => some (PyNum.pfloat ((c - y_off) * y_mult - y_zero) :: l)
    | false =>
      match pyIntS s with
      | none => none
      | some i =>
        match parseData convert y_off y_mult y_zero rest with
        | none => none
        | some l => some (PyNum.pint i :: l)

/-- Events `Tds.record` emits before the empty-`xincr` check: lock, flush,
the four acquisition-context commands, the `DATA?` status query and the four
preamble queries (all four are queried before anything is parsed). -/
def recordPreEvents (dev : Device) (ch : String) : List Event :=
  setEvents "LOCK ALL" ++ [.flushIn] ++
  setEvents "DATA INIT\n" ++
  setEvents ("DATA:SOURCE CH" ++ ch ++ "\n") ++
  setEvents "DATA:ENC ASCII\n" ++
  setEvents "DATA:WIDTH 1\n" ++
  queryEvents dev "DATA?" ++
  queryEvents dev (xincrQ ch) ++
  queryEvents dev (ymultQ ch) ++
  queryEvents dev (yoffQ ch) ++
  queryEvents dev (yzeroQ ch)

/-- `Tds.record(channel, convert)` : the emitted event trace together with the
returned dictionary, or the exception that terminates the run.  An empty
(rstripped) `XINCR?` reply triggers `sys.exit('Error: could not read channel
{channel}.')`; the four preamble floats are then parsed in source order
(`xincr`, `yoff`, `ymult`, `yzero`); the time vector is `x_incr * i` for
`i < 2500`; the `CURVE?` reply is split on commas and decoded; `UNLOCK ALL`
is sent only after a fully successful decode. -/
def record (dev : Device) (ch : String) (convert : Bool) :
    List Event × Except PyErr Measurement :=
  let xincr := pyRstrip (query dev (xincrQ ch))
  let ymult := pyRstrip (query dev (ymultQ ch))
  let yoff := pyRstrip (query dev (yoffQ ch))
  let yzero := pyRstrip (query dev (yzeroQ ch))
  let evPre := recordPreEvents dev ch
  if xincr = "" then
    (evPre, .error (.systemExit ("Error: could not read channel " ++ ch ++ ".")))
  else
    match pyFloatS xincr with
    | none => (evPre, .error .valueError)
    | some x_incr =>
      match pyFloatS yoff with
      | none => (evPre, .error .valueError)
      | some y_off =>
        match pyFloatS ymult with
        | none => (evPre, .error .valueError)
        | some y_mult =>
          match pyFloatS yzero with
          | none => (evPre, .error .valueError)
          | some y_zero =>
            let timevector := (List.range 2500).map fun i : Nat => x_incr * (i : ℚ)
            let xsplit := pySplit (query dev "CURVE?")
            match parseData convert y_off y_mult y_zero xsplit with
            | none => (evPre ++ queryEvents dev "CURVE?", .error .valueError)
            | some data =>
              (evPre ++ queryEvents dev "CURVE?" ++ setEvents "UNLOCK ALL\n",
               .ok { chn := ch, xincr := xincr, ymult := ymult, yoff := yoff,
                     yzero := yzero, data := data, t := timevector })

/-- The `while inWaiting() > 0` drain loop of `Tds.hardcopy` over the polling
epochs after the first read: each positive poll is read, appended and followed
by a 1-second sleep; the first poll of zero available bytes ends the loop. -/
def drainLoop : List Nat → List Event × Nat
  | [] => ([], 0)
  | n :: rest =>
    if 0 < n then
      let p := drainLoop rest
      (Event.readAvail n :: Event.sleep 1 :: p.1, n + p.2)
    else ([], 0)

/-- Final length of `self.image` : the unconditional first read plus what the
drain loop accumulates. -/
def hardcopySize (dev : Device) : Nat :=
  dev.polls.headD 0 + (drainLoop dev.polls.tail).2

/-- Commands `Tds.hardcopy` sends before draining: lock, flush, the three
hardcopy configuration commands and the start command. -/
def hardcopyPreEvents : List Event :=
  setEvents "LOCK ALL" ++ [.flushIn] ++
  setEvents "HARDCOPY:PORT RS232" ++
  setEvents "HARDCOPY:FORMAT BMP" ++
  setEvents "HARDCOPY:LAYOUT PORTRAIT" ++
  setEvents "HARDCOPY START"

/-- `Tds.hardcopy(filename)` : event trace, boolean return value, and whether
an image file was produced on disk.  `UNLOCK ALL` is sent before the size
check; a buffer shorter than 30000 bytes returns `False` with no file, else
the buffer is written, handed to the external `convert`, and `True` is
returned. -/
def hardcopy (dev : Device) : List Event × Bool × Bool :=
  let p := drainLoop dev.polls.tail
  let size := dev.polls.headD 0 + p.2
  let ev := hardcopyPreEvents ++
    [Event.sleep 1, Event.readAvail (dev.polls.headD 0), Event.sleep 1] ++
    p.1 ++ setEvents "UNLOCK ALL\n"
  if size < 30000 then (ev, false, false) else (ev, true, true)

/-- Return value of `main` : a Python int on the numbered paths, or the
channel string returned by `return channel` on a bad sample count. -/
inductive MainRet
  | int (n : Int)
  | str (s : String)
deriving DecidableEq, Repr

/-- Files `main` leaves on disk: the converted hardcopy image, and the data
file holding the measurement list in columnar (`.dat`) or yaml (`.yaml`)
form.  Argument parsing and serialization formats are collaborators; only
which file exists and which measurements went into it are modelled. -/
structure FilesWritten where
  png : Bool
  dat : Option (List Measurement)
  yaml : Option (List Measurement)
deriving DecidableEq, Repr

/-- Option values `main` consumes (the excluded docopt layer provides them):
`--hardcopy`, the `--channel` string (Python truthiness: nonempty), `-d` and
`FILENAME`. -/
structure Opts where
  hardcopyFlag : Bool
  channel : String
  dflag : Bool
  filename : String

/-- The per-channel loop of `main` : record each channel with
`convert = options['-d']`, keep the measurement, and `return channel` as soon
as one decodes a sample count other than 2500.  `Sum.inl` carries the
accepted measurements, `Sum.inr` the channel character of the early return. -/
def channelLoop (dev : Device) (dflag : Bool) :
    List Char → List Event × Except PyErr (List Measurement ⊕ Char)
  | [] => ([], .ok (.inl []))
  | c :: rest =>
    let r := record dev (String.mk [c]) dflag
    match r.2 with
    | .error e => (r.1, .error e)
    | .ok m =>
      if m.data.length = 2500 then
        let l := channelLoop dev dflag rest
        (r.1 ++ l.1,
         match l.2 with
         | .ok (.inl ms) => .ok (.inl (m :: ms))
         | other => other)
      else (r.1, .ok (.inr c))

/-- Events of the `Tds` constructor: the three line-discipline commands and
the `*IDN?` query issued for the verbose printout. -/
def tdsInitEvents (dev : Device) : List Event :=
  setEvents "RS232:TRANSMIT LF" ++
  setEvents "RS232:HARDFLAGGING ON" ++
  setEvents "header off" ++
  queryEvents dev "*IDN?"

/-- `main(options)` : construct `Tds`, re-query the identity and return 6 if
it is shorter than 5 characters; run the hardcopy if requested, returning 5
on failure; then record the requested channels, returning the channel string
on a bad sample count, and finally write the `.dat` or `.yaml` file.  The
result is the event trace plus either the exception that escaped or `main`'s
return value together with the files written. -/
def mainRun (opts : Opts) (dev : Device) :
    List Event × Except PyErr (MainRet × FilesWritten) :=
  let ev0 := tdsInitEvents dev ++ queryEvents dev "*IDN?"
  if (dev.resp "*IDN?").length < 5 then
    (ev0, .ok (.int 6, ⟨false, none, none⟩))
  else
    let h := hardcopy dev
    let evH := if opts.hardcopyFlag then h.1 else []
    if opts.hardcopyFlag ∧ h.2.1 = false then
      (ev0 ++ evH, .ok (.int 5, ⟨false, none, none⟩))
    else
      let png := opts.hardcopyFlag && h.2.2
      if opts.channel ≠ "" then
        let l := channelLoop dev opts.dflag opts.channel.data
        match l.2 with
        | .error e => (ev0 ++ evH ++ l.1, .error e)
        | .ok (.inr c) =>
          (ev0 ++ evH ++ l.1, .ok (.str (String.mk [c]), ⟨png, none, none⟩))
        | .ok (.inl ms) =>
          if 0 < ms.length then
            if opts.dflag then
              (ev0 ++ evH ++ l.1, .ok (.int 0, ⟨png, some ms, none⟩))
            else
              (ev0 ++ evH ++ l.1, .ok (.int 0, ⟨png, none, some ms⟩))
          else
            (ev0 ++ evH ++ l.1, .ok (.int 0, ⟨png, none, none⟩))
      else
        (ev0 ++ evH, .ok (.int 0, ⟨png, none, none⟩))

/-- Process exit status of `tds.py` : the `__main__` guard calls
`main(ARGUMENTS)` and discards its return value, so a normal return exits
with status 0; an escaping `sys.exit(message)` or uncaught exception exits
with status 1. -/
def processExit (opts : Opts) (dev : Device) : Nat :=
  match (mainRun opts dev).2 with
  | .ok _ => 0
  | .error _ => 1

/-- Count of writes carrying the `UNLOCK ALL` command.  Every write in this
program is one command followed by a newline, and `UNLOCK ALL` is the only
command whose text begins with the character `U`, so the first byte
identifies it. -/
def isUnlockWrite : Event → Bool
  | .write s => s.data.head? = some 'U'
  | _ => false

/-- Count of writes carrying the `LOCK ALL` command (the only command whose
text begins with the character `L`). -/
def isLockWrite : Event → Bool
  | .write s => s.data.head? = some 'L'
  | _ => false

/-- Number of `UNLOCK ALL` writes in a trace. -/
def unlockCount (tr : List Event) : Nat := tr.countP (isUnlockWrite ·)

/-- Number of `LOCK ALL` writes in a trace. -/
def lockCount (tr : List Event) : Nat := tr.countP (isLockWrite ·)

/-- The verbatim command strings of the external-interface section of the
specification, for channel `ch`. -/
def specCommands (ch : String) : List String :=
  ["RS232:TRANSMIT LF", "RS232:HARDFLAGGING ON", "header off", "*IDN?",
   "LOCK ALL", "DATA INIT", "DATA:SOURCE CH" ++ ch, "DATA:ENC ASCII",
   "DATA:WIDTH 1", "DATA?", xincrQ ch, ymultQ ch, yoffQ ch, yzeroQ ch,
   "CURVE?", "UNLOCK ALL", "HARDCOPY:PORT RS232", "HARDCOPY:FORMAT BMP",
   "HARDCOPY:LAYOUT PORTRAIT", "HARDCOPY START"]

/-- The command strings as the source actually passes them to `Tds.set` /
`Tds.query` : five call sites hand over a string that already ends in a
newline. -/
def actualCommands (ch : String) : List String :=
  ["RS232:TRANSMIT LF", "RS232:HARDFLAGGING ON", "header off", "*IDN?",
   "LOCK ALL", "DATA INIT\n", "DATA:SOURCE CH" ++ ch ++ "\n",
   "DATA:ENC ASCII\n", "DATA:WIDTH 1\n", "DATA?", xincrQ ch, ymultQ ch,
   yoffQ ch, yzeroQ ch, "CURVE?", "UNLOCK ALL\n", "HARDCOPY:PORT RS232",
   "HARDCOPY:FORMAT BMP", "HARDCOPY:LAYOUT PORTRAIT", "HARDCOPY START"]

/-- Comma-separated list of `n` copies of the sample text `12`, as the
character list of a `CURVE?` reply. -/
def curveChars : Nat → List Char
  | 0 => []
  | 1 => ['1', '2']
  | n + 2 => '1' :: '2' :: ',' :: curveChars (n + 1)

/-- Replies of the simulated instrument of the end-to-end scenario:
`x_increment = 1e-3`, `y_multiplier = 2`, `y_offset = 10`, `y_zero = 0.5`,
and a curve of 2500 copies of `12`. -/
def scenResp (c : String) : String :=
  if c = "*IDN?" then "TEKTRONIX,TDS 220,0,CF:91.1CT FV:v1.16\n"
  else if c = "WFMPRE:CH1:XINCR?" then "1e-3\n"
  else if c = "WFMPRE:CH1:YMULT?" then "2\n"
  else if c = "WFMPRE:CH1:YOFF?" then "10\n"
  else if c = "WFMPRE:CH1:YZERO?" then "0.5\n"
  else if c = "CURVE?" then String.mk (curveChars 2500)
  else "\n"

/-- The simulated instrument of the end-to-end scenario. -/
def scenDev : Device := ⟨scenResp, [0]⟩

/-- A responding instrument whose `XINCR?` reply is an empty line and whose
other preamble replies are unparseable garbage. -/
def cexResp (c : String) : String :=
  if c = "*IDN?" then "TEKTRONIX,TDS 220,0,CF:91.1CT FV:v1.16\n"
  else if c = "WFMPRE:CH1:XINCR?" then "\n"
  else "zz\n"

/-- Device built from `cexResp`. -/
def cexDev : Device := ⟨cexResp, [0]⟩

/-- A dead serial port: every read returns nothing. -/
def noInstDev : Device := ⟨fun _ => "", []⟩

/-- A responding instrument whose curve decodes to 3 samples instead of
2500. -/
def badCountResp (c : String) : String :=
  if c = "CURVE?" then "1,2,3\n" else scenResp c

/-- Device built from `badCountResp`. -/
def badCountDev : Device := ⟨badCountResp, [0]⟩

/-- Hardcopy scenario: polls of 20000, 15000 and 0 available bytes. -/
def hcDev1 : Device := ⟨scenResp, [20000, 15000, 0]⟩

/-- Hardcopy scenario: a single poll of 10000, then 0 available bytes. -/
def hcDev2 : Device := ⟨scenResp, [10000, 0]⟩

/-- Hardcopy polls accumulating exactly 29999 bytes. -/
def hcDev29999 : Device := ⟨scenResp, [20000, 9999, 0]⟩

/-- Hardcopy polls accumulating exactly 30000 bytes. -/
def hcDev30000 : Device := ⟨scenResp, [20000, 10000, 0]⟩

instance {ε α : Type} [DecidableEq ε] [DecidableEq α] : DecidableEq (Except ε α)
  | .error a, .error b =>
    if h : a = b then .isTrue (by rw [h]) else .isFalse (by simp [h])
  | .error _, .ok _ => .isFalse (by simp)
  | .ok _, .error _ => .isFalse (by simp)
  | .ok a, .ok b =>
    if h : a = b then .isTrue (by rw [h]) else .isFalse (by simp [h])

/-- Options of the failing-record counterexample run: record channel 1, no
hardcopy, yaml output. -/
def cexOpts : Opts := ⟨false, "1", false, "out"⟩

/-- Options of the no-instrument run. -/
def noInstOpts : Opts := ⟨false, "", false, "out"⟩

/-- Options of the failing-hardcopy run. -/
def hcFailOpts : Opts := ⟨true, "", false, "out"⟩

/-- Options of the bad-sample-count run. -/
def badCountOpts : Opts := ⟨false, "1", false, "out"⟩

/-- Options of the end-to-end scenario run: record channel 1 in columnar
(`-d`, hence converted) mode. -/
def scenOpts : Opts := ⟨false, "1", true, "out"⟩

/-- The measurement produced by the end-to-end scenario. -/
@[reducible] def scenMeas : Measurement :=
  { chn := "1", xincr := "1e-3", ymult := "2", yoff := "10", yzero := "0.5",
    data := List.replicate 2500 (.pfloat (7/2)),
    t := (List.range 2500).map fun i : Nat => (1/1000 : ℚ) * (i : ℚ) }

theorem head_append (s t : String) (c : Char) (h : s.data.head? = some c) :
    (s ++ t).data.head? = some c := by
  rw [String.data_append]
  cases hs : s.data with
  | nil => rw [hs] at h; simp at h
  | cons a as => rw [hs] at h; simpa using h

@[simp] theorem isUnlockWrite_flushOut : isUnlockWrite .flushOut = false := rfl

@[simp] theorem isUnlockWrite_flushIn : isUnlockWrite .flushIn = false := rfl

@[simp] theorem isUnlockWrite_readLine (s : String) :
    isUnlockWrite (.readLine s) = false := rfl

@[simp] theorem isUnlockWrite_readAvail (n : Nat) :
    isUnlockWrite (.readAvail n) = false := rfl

@[simp] theorem isUnlockWrite_sleep (n : Nat) :
    isUnlockWrite (.sleep n) = false := rfl

@[simp] theorem isLockWrite_flushOut : isLockWrite .flushOut = false := rfl

@[simp] theorem isLockWrite_flushIn : isLockWrite .flushIn = false := rfl

@[simp] theorem isLockWrite_readLine (s : String) :
    isLockWrite (.readLine s) = false := rfl

theorem isUnlockWrite_append (c d : String) (a : Char) (h : c.data.head? = some a)
    (ha : a ≠ 'U') : isUnlockWrite (.write (c ++ d)) = false := by
  simp only [isUnlockWrite, head_append c d a h]
  simpa using ha

theorem isLockWrite_append (c d : String) (a : Char) (h : c.data.head? = some a)
    (ha : a ≠ 'L') : isLockWrite (.write (c ++ d)) = false := by
  simp only [isLockWrite, head_append c d a h]
  simpa using ha

theorem unlockCount_append (t1 t2 : List Event) :
    unlockCount (t1 ++ t2) = unlockCount t1 + unlockCount t2 :=
  List.countP_append _ _ _

theorem unlockCount_setEvents (c : String) (a : Char) (h : c.data.head? = some a)
    (ha : a ≠ 'U') : unlockCount (setEvents c) = 0 := by
  simp [unlockCount, setEvents, List.countP_cons, isUnlockWrite_append c "\n" a h ha]

theorem unlockCount_setEvents_unlock : unlockCount (setEvents "UNLOCK ALL\n") = 1 := by
  decide

theorem unlockCount_queryEvents (dev : Device) (c : String) (a : Char)
    (h : c.data.head? = some a) (ha : a ≠ 'U') :
    unlockCount (queryEvents dev c) = 0 := by
  simp [unlockCount, queryEvents, List.countP_cons,
    isUnlockWrite_append c "\n" a h ha]

theorem head_dataSource (ch : String) :
    ("DATA:SOURCE CH" ++ ch ++ "\n").data.head? = some 'D' :=
  head_append ("DATA:SOURCE CH" ++ ch) "\n" 'D'
    (head_append "DATA:SOURCE CH" ch 'D' (by decide))

theorem head_xincrQ (ch : String) : (xincrQ ch).data.head? = some 'W' :=
  head_append ("WFMPRE:CH" ++ ch) ":XINCR?" 'W'
    (head_append "WFMPRE:CH" ch 'W' (by decide))

theorem head_ymultQ (ch : String) : (ymultQ ch).data.head? = some 'W' :=
  head_append ("WFMPRE:CH" ++ ch) ":YMULT?" 'W'
    (head_append "WFMPRE:CH" ch 'W' (by decide))

theorem head_yoffQ (ch : String) : (yoffQ ch).data.head? = some 'W' :=
  head_append ("WFMPRE:CH" ++ ch) ":YOFF?" 'W'
    (head_append "WFMPRE:CH" ch 'W' (by decide))

theorem head_yzeroQ (ch : String) : (yzeroQ ch).data.head? = some 'W' :=
  head_append ("WFMPRE:CH" ++ ch) ":YZERO?" 'W'
    (head_append "WFMPRE:CH" ch 'W' (by decide))

theorem unlockCount_recordPre (dev : Device) (ch : String) :
    unlockCount (recordPreEvents dev ch) = 0 := by
  unfold recordPreEvents
  repeat rw [unlockCount_append]
  rw [unlockCount_setEvents "LOCK ALL" 'L' (by decide) (by decide),
    unlockCount_setEvents "DATA INIT\n" 'D' (by decide) (by decide),
    unlockCount_setEvents _ 'D' (head_dataSource ch) (by decide),
    unlockCount_setEvents "DATA:ENC ASCII\n" 'D' (by decide) (by decide),
    unlockCount_setEvents "DATA:WIDTH 1\n" 'D' (by decide) (by decide),
    unlockCount_queryEvents dev "DATA?" 'D' (by decide) (by decide),
    unlockCount_queryEvents dev _ 'W' (head_xincrQ ch) (by decide),
    unlockCount_queryEvents dev _ 'W' (head_ymultQ ch) (by decide),
    unlockCount_queryEvents dev _ 'W' (head_yoffQ ch) (by decide),
    unlockCount_queryEvents dev _ 'W' (head_yzeroQ ch) (by decide)]
  decide

set_option maxRecDepth 4000 in
theorem record_ok_elim (dev : Device) (ch : String) (cv : Bool) (m : Measurement)
    (h : (record dev ch cv).2 = .ok m) :
    ∃ q yo ym yz,
      pyFloatS (pyRstrip (dev.resp (xincrQ ch))) = some q ∧
      pyFloatS (pyRstrip (dev.resp (yoffQ ch))) = some yo ∧
      pyFloatS (pyRstrip (dev.resp (ymultQ ch))) = some ym ∧
      pyFloatS (pyRstrip (dev.resp (yzeroQ ch))) = some yz ∧
      parseData cv yo ym yz (pySplit (dev.resp "CURVE?")) = some m.data ∧
      m.chn = ch ∧ m.xincr = pyRstrip (dev.resp (xincrQ ch)) ∧
      m.t = ((List.range 2500).map fun i : Nat => q * (i : ℚ)) := by
  simp only [record, query] at h
  split at h
  · simp at h
  · split at h
    · simp at h
    next q hq =>
      split at h
      · simp at h
      next yo hyo =>
        split at h
        · simp at h
        next ym hym =>
          split at h
          · simp at h
          next yz hyz =>
            split at h
            · simp at h
            next d hd =>
              rw [Except.ok.injEq] at h
              subst h
              exact ⟨q, yo, ym, yz, hq, hyo, hym, hyz, hd, rfl, rfl, rfl⟩

theorem record_trace_and_result (dev : Device) (ch : String) (cv : Bool) :
    ((record dev ch cv).1 = recordPreEvents dev ch ∧
      ∃ e, (record dev ch cv).2 = .error e) ∨
    ((record dev ch cv).1 = recordPreEvents dev ch ++ queryEvents dev "CURVE?" ∧
      (record dev ch cv).2 = .error .valueError) ∨
    ((record dev ch cv).1 = recordPreEvents dev ch ++ queryEvents dev "CURVE?" ++
        setEvents "UNLOCK ALL\n" ∧
      ∃ m, (record dev ch cv).2 = .ok m) := by
  simp only [record, query]
  split
  · exact Or.inl ⟨rfl, _, rfl⟩
  · split
    · exact Or.inl ⟨rfl, _, rfl⟩
    · split
      · exact Or.inl ⟨rfl, _, rfl⟩
      · split
        · exact Or.inl ⟨rfl, _, rfl⟩
        · split
          · exact Or.inl ⟨rfl, _, rfl⟩
          · split
            · exact Or.inr (Or.inl ⟨rfl, rfl⟩)
            · exact Or.inr (Or.inr ⟨rfl, _, rfl⟩)

theorem record_trace_ok (dev : Device) (ch : String) (cv : Bool) (m : Measurement)
    (h : (record dev ch cv).2 = .ok m) :
    (record dev ch cv).1 =
      recordPreEvents dev ch ++ queryEvents dev "CURVE?" ++
        setEvents "UNLOCK ALL\n" := by
  rcases record_trace_and_result dev ch cv with ⟨_, e, he⟩ | ⟨_, he⟩ | ⟨h1, _⟩
  · exact absurd (he.symm.trans h) (by simp)
  · exact absurd (he.symm.trans h) (by simp)
  · exact h1

theorem record_trace_error (dev : Device) (ch : String) (cv : Bool) (e : PyErr)
    (h : (record dev ch cv).2 = .error e) :
    (record dev ch cv).1 = recordPreEvents dev ch ∨
    (record dev ch cv).1 =
      recordPreEvents dev ch ++ queryEvents dev "CURVE?" := by
  rcases record_trace_and_result dev ch cv with ⟨h1, _⟩ | ⟨h1, _⟩ | ⟨_, m, hm⟩
  · exact Or.inl h1
  · exact Or.inr h1
  · exact absurd (hm.symm.trans h) (by simp)

theorem parseData_length (cv : Bool) (yo ym yz : ℚ) :
    ∀ (l : List String) (d : List PyNum),
      parseData cv yo ym yz l = some d → d.length = l.length := by
  intro l
  induction l with
  | nil =>
    intro d h
    simp only [parseData, Option.some.injEq] at h
    subst h; rfl
  | cons s rest ih =>
    intro d h
    simp only [parseData] at h
    split at h
    · split at h
      · exact absurd h (by simp)
      · split at h
        · exact absurd h (by simp)
        next l' hl' =>
          rw [Option.some.injEq] at h
          subst h
          simpa using ih l' hl'
    · split at h
      · exact absurd h (by simp)
      · split at h
        · exact absurd h (by simp)
        next l' hl' =>
          rw [Option.some.injEq] at h
          subst h
          simpa using ih l' hl'

theorem parseData_true_get (yo ym yz : ℚ) :
    ∀ (l : List String) (d : List PyNum),
      parseData true yo ym yz l = some d →
      ∀ i, i < d.length →
        ∃ c, pyFloatS (l.getD i "") = some c ∧
          d.getD i (.pint 0) = .pfloat ((c - yo) * ym - yz) := by
  intro l
  induction l with
  | nil =>
    intro d h
    simp only [parseData, Option.some.injEq] at h
    subst h
    simp
  | cons s rest ih =>
    intro d h
    simp only [parseData] at h
    split at h
    · exact absurd h (by simp)
    next c hc =>
      split at h
      · exact absurd h (by simp)
      next l' hl' =>
        rw [Option.some.injEq] at h
        subst h
        intro i hi
        cases i with
        | zero => exact ⟨c, by simpa using hc, by simp⟩
        | succ j =>
          have := ih l' hl' j (by simpa using hi)
          simpa using this

theorem parseData_false_pint (yo ym yz : ℚ) :
    ∀ (l : List String) (d : List PyNum),
      parseData false yo ym yz l = some d → ∀ x ∈ d, ∃ i, x = .pint i := by
  intro l
  induction l with
  | nil =>
    intro d h
    simp only [parseData, Option.some.injEq] at h
    subst h
    simp
  | cons s rest ih =>
    intro d h
    simp only [parseData] at h
    split at h
    · exact absurd h (by simp)
    next v hv =>
      split at h
      · exact absurd h (by simp)
      next l' hl' =>
        rw [Option.some.injEq] at h
        subst h
        intro x hx
        rcases List.mem_cons.1 hx with hx | hx
        · exact ⟨v, hx⟩
        · exact ih l' hl' x hx

theorem parseData_true_pfloat (yo ym yz : ℚ) :
    ∀ (l : List String) (d : List PyNum),
      parseData true yo ym yz l = some d → ∀ x ∈ d, ∃ q, x = .pfloat q := by
  intro l
  induction l with
  | nil =>
    intro d h
    simp only [parseData, Option.some.injEq] at h
    subst h
    simp
  | cons s rest ih =>
    intro d h
    simp only [parseData] at h
    split at h
    · exact absurd h (by simp)
    next c hc =>
      split at h
      · exact absurd h (by simp)
      next l' hl' =>
        rw [Option.some.injEq] at h
        subst h
        intro x hx
        rcases List.mem_cons.1 hx with hx | hx
        · exact ⟨_, hx⟩
        · exact ih l' hl' x hx

theorem drainLoop_events (polls : List Nat) :
    ∀ e ∈ (drainLoop polls).1, (∃ n, e = .readAvail n) ∨ e = .sleep 1 := by
  induction polls with
  | nil => intro e he; simp [drainLoop] at he
  | cons n rest ih =>
    intro e he
    simp only [drainLoop] at he
    split at he
    · simp only [List.mem_cons] at he
      rcases he with rfl | rfl | he
      · exact Or.inl ⟨n, rfl⟩
      · exact Or.inr rfl
      · exact ih e he
    · simp at he

theorem drainLoop_unlock (polls : List Nat) :
    unlockCount (drainLoop polls).1 = 0 := by
  rw [unlockCount, List.countP_eq_zero]
  intro e he
  rcases drainLoop_events polls e he with ⟨n, rfl⟩ | rfl <;> simp

theorem drainLoop_sum (polls : List Nat) :
    (drainLoop polls).2 = (polls.takeWhile fun n => 0 < n).sum := by
  induction polls with
  | nil => rfl
  | cons n rest ih =>
    by_cases h : 0 < n
    · simp [drainLoop, List.takeWhile_cons, h, ih]
    · simp [drainLoop, List.takeWhile_cons, h]

theorem hardcopy_trace (dev : Device) :
    (hardcopy dev).1 = hardcopyPreEvents ++
      [.sleep 1, .readAvail (dev.polls.headD 0), .sleep 1] ++
      (drainLoop dev.polls.tail).1 ++ setEvents "UNLOCK ALL\n" := by
  simp only [hardcopy]
  split <;> simp [List.append_assoc]

theorem hardcopy_result (dev : Device) :
    (hardcopy dev).2 =
      if hardcopySize dev < 30000 then (false, false) else (true, true) := by
  simp only [hardcopy, hardcopySize]
  split <;> rfl

theorem unlockCount_hardcopyPre : unlockCount hardcopyPreEvents = 0 := by decide

theorem hardcopy_unlock (dev : Device) : unlockCount (hardcopy dev).1 = 1 := by
  rw [hardcopy_trace, unlockCount_append, unlockCount_append, unlockCount_append,
    unlockCount_hardcopyPre, drainLoop_unlock, unlockCount_setEvents_unlock]
  have hmid : unlockCount [Event.sleep 1, .readAvail (dev.polls.headD 0), .sleep 1] = 0 := by
    simp [unlockCount, List.countP_cons]
  rw [hmid]

theorem channelLoop_ok_inl (dev : Device) (dflag : Bool) :
    ∀ (chars : List Char) (ms : List Measurement),
      (channelLoop dev dflag chars).2 = .ok (.inl ms) →
      ∀ m ∈ ms, (∃ c, c ∈ chars ∧ (record dev (String.mk [c]) dflag).2 = .ok m) ∧
        m.data.length = 2500 := by
  intro chars
  induction chars with
  | nil =>
    intro ms h
    simp only [channelLoop, Except.ok.injEq, Sum.inl.injEq] at h
    subst h
    simp
  | cons c rest ih =>
    intro ms h
    simp only [channelLoop] at h
    split at h
    · exact absurd h (by simp)
    next m hm =>
      split at h
      next hlen =>
        split at h
        next ms' hms' =>
          rw [Except.ok.injEq, Sum.inl.injEq] at h
          subst h
          intro x hx
          rcases List.mem_cons.1 hx with rfl | hx
          · exact ⟨⟨c, List.mem_cons_self c rest, hm⟩, hlen⟩
          · obtain ⟨⟨c', hc', hrc⟩, hl⟩ := ih ms' hms' x hx
            exact ⟨⟨c', List.mem_cons_of_mem c hc', hrc⟩, hl⟩
        next hne =>
          exact absurd h (by simp_all)
      next hlen =>
        exact absurd h (by simp)

theorem pySplitChar_curveChars :
    ∀ n, pySplitChar ',' (curveChars (n + 1)) = List.replicate (n + 1) ['1', '2'] := by
  intro n
  induction n with
  | zero => decide
  | succ k ih =>
    show pySplitChar ',' ('1' :: '2' :: ',' :: curveChars (k + 1)) = _
    simp only [pySplitChar, ih, List.replicate_succ]
    all_goals simp

theorem pySplit_curve :
    pySplit (String.mk (curveChars 2500)) = List.replicate 2500 "12" := by
  show (pySplitChar ',' (curveChars 2500)).map String.mk = _
  rw [show (2500 : Nat) = 2499 + 1 from rfl, pySplitChar_curveChars 2499,
    List.map_replicate]

theorem convVal_eq :
    (mkRat 12 1 - mkRat 10 1) * mkRat 2 1 - mkRat 1 2 = (7/2 : ℚ) := by
  norm_num [Rat.mkRat_eq_divInt, Rat.divInt_eq_div]

theorem mkRat_thousandth : mkRat 1 1000 = (1/1000 : ℚ) := by
  norm_num [Rat.mkRat_eq_divInt, Rat.divInt_eq_div]

theorem parseData_replicate12 :
    ∀ n, parseData true (mkRat 10 1) (mkRat 2 1) (mkRat 1 2) (List.replicate n "12") =
      some (List.replicate n
        (.pfloat ((mkRat 12 1 - mkRat 10 1) * mkRat 2 1 - mkRat 1 2))) := by
  intro n
  induction n with
  | zero => rfl
  | succ k ih =>
    rw [List.replicate_succ, List.replicate_succ]
    simp only [parseData]
    rw [show pyFloatS "12" = some (mkRat 12 1) from by decide, ih]

theorem record_eval (dev : Device) (ch : String) (cv : Bool)
    (xi yo ym yz : String) (q qo qm qz : ℚ) (codes : List PyNum)
    (hxi : pyRstrip (dev.resp (xincrQ ch)) = xi)
    (hyo : pyRstrip (dev.resp (yoffQ ch)) = yo)
    (hym : pyRstrip (dev.resp (ymultQ ch)) = ym)
    (hyz : pyRstrip (dev.resp (yzeroQ ch)) = yz)
    (hne : ¬ xi = "")
    (hq : pyFloatS xi = some q) (hqo : pyFloatS yo = some qo)
    (hqm : pyFloatS ym = some qm) (hqz : pyFloatS yz = some qz)
    (hdata : parseData cv qo qm qz (pySplit (dev.resp "CURVE?")) = some codes) :
    (record dev ch cv).2 = .ok
      { chn := ch, xincr := xi, ymult := ym, yoff := yo, yzero := yz,
        data := codes, t := (List.range 2500).map fun i : Nat => q * (i : ℚ) } := by
  simp only [record, query, hxi, hyo, hym, hyz, hq, hqo, hqm, hqz, hdata, if_neg hne]

theorem scen_curve_parse :
    parseData true (mkRat 10 1) (mkRat 2 1) (mkRat 1 2)
      (pySplit (scenDev.resp "CURVE?")) =
    some (List.replicate 2500
      (.pfloat ((mkRat 12 1 - mkRat 10 1) * mkRat 2 1 - mkRat 1 2))) := by
  rw [show scenDev.resp "CURVE?" = String.mk (curveChars 2500) from rfl, pySplit_curve]
  exact parseData_replicate12 2500

theorem scenario_record : (record scenDev "1" true).2 = .ok scenMeas := by
  rw [record_eval scenDev "1" true "1e-3" "10" "2" "0.5"
    (mkRat 1 1000) (mkRat 10 1) (mkRat 2 1) (mkRat 1 2)
    (List.replicate 2500 (.pfloat ((mkRat 12 1 - mkRat 10 1) * mkRat 2 1 - mkRat 1 2)))
    (by decide) (by decide) (by decide) (by decide) (by decide)
    (by decide) (by decide) (by decide) (by decide) scen_curve_parse]
  unfold scenMeas
  simp only [convVal_eq, mkRat_thousandth]

theorem mainRun_files (opts : Opts) (dev : Device) (r : MainRet) (fs : FilesWritten)
    (h : (mainRun opts dev).2 = .ok (r, fs)) :
    (∀ ms, fs.dat = some ms → opts.dflag = true ∧
      (channelLoop dev opts.dflag opts.channel.data).2 = .ok (.inl ms)) ∧
    (∀ ms, fs.yaml = some ms → opts.dflag = false ∧
      (channelLoop dev opts.dflag opts.channel.data).2 = .ok (.inl ms)) := by
  simp only [mainRun] at h
  split at h
  · rw [Except.ok.injEq] at h
    obtain ⟨rfl, rfl⟩ := Prod.mk.inj h.symm
    simp
  · split at h
    · rw [Except.ok.injEq] at h
      obtain ⟨rfl, rfl⟩ := Prod.mk.inj h.symm
      simp
    · split at h
      · split at h
        · exact absurd h (by simp)
        · rw [Except.ok.injEq] at h
          obtain ⟨rfl, rfl⟩ := Prod.mk.inj h.symm
          simp
        next ms' hms' =>
          split at h
          · split at h
            next hd =>
              rw [Except.ok.injEq] at h
              obtain ⟨rfl, rfl⟩ := Prod.mk.inj h.symm
              refine ⟨fun ms hms => ?_, by simp⟩
              obtain rfl := Option.some.inj hms
              exact ⟨hd, hms'⟩
            next hd =>
              rw [Except.ok.injEq] at h
              obtain ⟨rfl, rfl⟩ := Prod.mk.inj h.symm
              refine ⟨by simp, fun ms hms => ?_⟩
              obtain rfl := Option.some.inj hms
              exact ⟨Bool.not_eq_true _ ▸ hd, hms'⟩
          · rw [Except.ok.injEq] at h
            obtain ⟨rfl, rfl⟩ := Prod.mk.inj h.symm
            simp
      · rw [Except.ok.injEq] at h
        obtain ⟨rfl, rfl⟩ := Prod.mk.inj h.symm
        simp

theorem channelLoop_singleton (dev : Device) (dflag : Bool) (c : Char) (m : Measurement)
    (hrec : (record dev (String.mk [c]) dflag).2 = .ok m)
    (hlen : m.data.length = 2500) :
    (channelLoop dev dflag [c]).2 = .ok (.inl [m]) := by
  simp only [channelLoop, hrec, hlen, eq_self_iff_true, if_true]

theorem scen_channelLoop :
    (channelLoop scenDev true ['1']).2 = .ok (.inl [scenMeas]) :=
  channelLoop_singleton scenDev true '1' scenMeas scenario_record
    (List.length_replicate 2500 _)

theorem mainRun_eval_dat (opts : Opts) (dev : Device) (ms : List Measurement)
    (hidn : ¬ (dev.resp "*IDN?").length < 5)
    (hhc : opts.hardcopyFlag = false)
    (hch : opts.channel ≠ "")
    (hdf : opts.dflag = true)
    (hloop : (channelLoop dev opts.dflag opts.channel.data).2 = .ok (.inl ms))
    (hlen : 0 < ms.length) :
    (mainRun opts dev).2 = .ok (.int 0, ⟨false, some ms, none⟩) := by
  simp only [mainRun]
  rw [if_neg hidn]
  rw [if_neg (by simp [hhc])]
  rw [if_pos hch]
  simp only [hloop]
  rw [if_pos hlen, if_pos hdf]
  simp [hhc]

theorem scen_mainRun :
    (mainRun scenOpts scenDev).2 = .ok (.int 0, ⟨false, some [scenMeas], none⟩) :=
  mainRun_eval_dat scenOpts scenDev [scenMeas] (by decide) rfl (by decide) rfl
    scen_channelLoop (by simp)

/-- C1, counterexample: in a session that runs `main` against a responding
instrument whose `XINCR?` reply is empty, the record attempt locks the front
panel (one `LOCK ALL` write) and the session ends by `sys.exit` with zero
`UNLOCK ALL` writes, so the claim that every attempt issues `UNLOCK ALL`
exactly once by session end is false at this input. -/
theorem c1_counterexample_unlock_skipped :
    lockCount (mainRun cexOpts cexDev).1 = 1 ∧
    unlockCount (mainRun cexOpts cexDev).1 = 0 ∧
    (mainRun cexOpts cexDev).2 =
      .error (.systemExit "Error: could not read channel 1.") := by decide

/-- C1, amended: a hardcopy attempt always issues `UNLOCK ALL` exactly once,
whatever the outcome; a record attempt issues it exactly once when it
returns, but zero times when it aborts (empty `x_increment` or an
unparseable numeric field), so a failed record leaves the front panel
locked. -/
theorem c1_amended_unlock_bracketing :
    (∀ dev : Device, unlockCount (hardcopy dev).1 = 1) ∧
    (∀ (dev : Device) (ch : String) (cv : Bool) (m : Measurement),
      (record dev ch cv).2 = .ok m → unlockCount (record dev ch cv).1 = 1) ∧
    (∀ (dev : Device) (ch : String) (cv : Bool) (e : PyErr),
      (record dev ch cv).2 = .error e → unlockCount (record dev ch cv).1 = 0) := by
  refine ⟨hardcopy_unlock, fun dev ch cv m h => ?_, fun dev ch cv e h => ?_⟩
  · rw [record_trace_ok dev ch cv m h, unlockCount_append, unlockCount_append,
      unlockCount_recordPre, unlockCount_queryEvents dev "CURVE?" 'C' (by decide) (by decide),
      unlockCount_setEvents_unlock]
  · rcases record_trace_error dev ch cv e h with h1 | h1 <;> rw [h1]
    · exact unlockCount_recordPre dev ch
    · rw [unlockCount_append, unlockCount_recordPre,
        unlockCount_queryEvents dev "CURVE?" 'C' (by decide) (by decide)]

/-- Witness for the amended C1 at the concrete scenario instrument. -/
theorem c1_amended_unlock_bracketing_witness :
    unlockCount (record scenDev "1" true).1 = 1 :=
  c1_amended_unlock_bracketing.2.1 scenDev "1" true scenMeas scenario_record

/-- C2: if the rstripped `XINCR?` reply is empty, `record` aborts with the
channel-read `SystemExit` (message `Error: could not read channel {ch}.`),
and in particular not with the `ValueError` a parse attempt on the remaining
preamble fields would raise — they are queried but never parsed. -/
theorem c2_empty_xincr_channel_read_error (dev : Device) (ch : String) (cv : Bool)
    (hx : pyRstrip (dev.resp (xincrQ ch)) = "") :
    (record dev ch cv).2 =
      .error (.systemExit ("Error: could not read channel " ++ ch ++ ".")) ∧
    (record dev ch cv).2 ≠ .error .valueError := by
  have h : (record dev ch cv).2 =
      .error (.systemExit ("Error: could not read channel " ++ ch ++ ".")) := by
    simp only [record, query, hx, if_true]
  exact ⟨h, by rw [h]; simp⟩

/-- Witness for C2: an instrument answering an empty `XINCR?` line and
unparseable garbage for the other preamble fields. -/
theorem c2_empty_xincr_channel_read_error_witness :
    (record cexDev "1" false).2 =
      .error (.systemExit ("Error: could not read channel " ++ "1" ++ ".")) ∧
    (record cexDev "1" false).2 ≠ .error .valueError :=
  c2_empty_xincr_channel_read_error cexDev "1" false (by decide)

/-- C3: every measurement in a batch the channel loop accepts has exactly
2500 decoded samples and a 2500-entry time vector whose entry at `i` is
`x_increment * i`, with `x_increment` parsed from the stored preamble
string — the time vector is synthesized locally from that value alone. -/
theorem c3_accepted_lengths_and_timebase (dev : Device) (dflag : Bool)
    (chars : List Char) (ms : List Measurement)
    (h : (channelLoop dev dflag chars).2 = .ok (.inl ms)) :
    ∀ m ∈ ms, m.data.length = 2500 ∧ m.t.length = 2500 ∧
      ∃ q, pyFloatS m.xincr = some q ∧
        ∀ i, i < 2500 → m.t.getD i 0 = q * (i : ℚ) := by
  intro m hm
  obtain ⟨⟨c, _, hrec⟩, hlen⟩ := channelLoop_ok_inl dev dflag chars ms h m hm
  obtain ⟨q, yo, ym, yz, hq, _, _, _, _, _, hxi, ht⟩ := record_ok_elim _ _ _ _ hrec
  refine ⟨hlen, ?_, q, by rw [hxi]; exact hq, ?_⟩
  · rw [ht]; simp
  · intro i hi
    rw [ht, List.getD_eq_getElem?_getD, List.getElem?_map, List.getElem?_range hi]
    rfl

/-- Witness for C3 at the concrete scenario batch. -/
theorem c3_accepted_lengths_and_timebase_witness :
    scenMeas.data.length = 2500 ∧ scenMeas.t.length = 2500 ∧
      ∃ q, pyFloatS scenMeas.xincr = some q ∧
        ∀ i, i < 2500 → scenMeas.t.getD i 0 = q * (i : ℚ) :=
  c3_accepted_lengths_and_timebase scenDev true ['1'] [scenMeas]
    scen_channelLoop scenMeas (List.mem_singleton.2 rfl)

/-- C4: a hardcopy whose drained buffer is exactly 29999 bytes (one below
the 30000-byte threshold) returns `False` and writes no file; exactly 30000
bytes returns `True` and produces the image file. -/
theorem c4_hardcopy_threshold_boundary (dev : Device) :
    (hardcopySize dev = 29999 → (hardcopy dev).2 = (false, false)) ∧
    (hardcopySize dev = 30000 → (hardcopy dev).2 = (true, true)) := by
  constructor
  · intro h
    rw [hardcopy_result, h, if_pos (by norm_num)]
  · intro h
    rw [hardcopy_result, h, if_neg (by norm_num)]

/-- Witness for C4 at concrete poll sequences totalling 29999 and 30000
bytes. -/
theorem c4_hardcopy_threshold_boundary_witness :
    (hardcopy hcDev29999).2 = (false, false) ∧
    (hardcopy hcDev30000).2 = (true, true) :=
  ⟨(c4_hardcopy_threshold_boundary hcDev29999).1 (by decide),
   (c4_hardcopy_threshold_boundary hcDev30000).2 (by decide)⟩

/-- C5: when the channel loop hits a measurement whose decoded sample count
differs from 2500 it returns the channel early, and `main` then ends with a
non-zero outcome and neither a `.dat` nor a `.yaml` file written (this also
covers the run being cut short earlier by a failed hardcopy). -/
theorem c5_bad_count_aborts_batch (opts : Opts) (dev : Device) (c : Char)
    (hch : opts.channel ≠ "")
    (hloop : (channelLoop dev opts.dflag opts.channel.data).2 = .ok (.inr c)) :
    ∃ r fs, (mainRun opts dev).2 = .ok (r, fs) ∧
      fs.dat = none ∧ fs.yaml = none ∧ r ≠ .int 0 := by
  simp only [mainRun]
  split
  · exact ⟨.int 6, ⟨false, none, none⟩, rfl, rfl, rfl, by simp⟩
  · split
    · exact ⟨.int 5, ⟨false, none, none⟩, rfl, rfl, rfl, by simp⟩
    · simp only [hloop]
      exact ⟨.str (String.mk [c]), ⟨_, none, none⟩, rfl, rfl, rfl, by simp⟩

/-- Witness for C5: a responding instrument whose curve decodes to 3 samples
makes the channel-1 batch abort with the string outcome and no data file. -/
theorem c5_bad_count_aborts_batch_witness :
    ∃ r fs, (mainRun badCountOpts badCountDev).2 = .ok (r, fs) ∧
      fs.dat = none ∧ fs.yaml = none ∧ r ≠ .int 0 :=
  c5_bad_count_aborts_batch badCountOpts badCountDev '1' (by decide) (by decide)

/-- C6: the drained buffer is the first poll plus the sum of the following
polls up to (excluding) the first that observes zero bytes, each loop pass
reading once and sleeping 1 second; polls of 20000, 15000, 0 give a 35000
byte buffer that is accepted, a single poll of 10000 then 0 gives 10000
bytes and is rejected. -/
theorem c6_drain_loop_behavior :
    (∀ dev : Device, hardcopySize dev =
      dev.polls.headD 0 + ((dev.polls.tail).takeWhile fun n => 0 < n).sum) ∧
    ((hardcopy hcDev1).1 = hardcopyPreEvents ++
      [.sleep 1, .readAvail 20000, .sleep 1, .readAvail 15000, .sleep 1] ++
      setEvents "UNLOCK ALL\n" ∧
     hardcopySize hcDev1 = 35000 ∧ (hardcopy hcDev1).2 = (true, true)) ∧
    ((hardcopy hcDev2).1 = hardcopyPreEvents ++
      [.sleep 1, .readAvail 10000, .sleep 1] ++ setEvents "UNLOCK ALL\n" ∧
     hardcopySize hcDev2 = 10000 ∧ (hardcopy hcDev2).2 = (false, false)) := by
  refine ⟨fun dev => ?_, ⟨by decide, by decide, by decide⟩,
    ⟨by decide, by decide, by decide⟩⟩
  unfold hardcopySize
  rw [drainLoop_sum]

/-- C7: in converted mode every decoded sample is
`(code - y_offset) * y_multiplier - y_zero` for the code parsed from the
corresponding comma-separated curve field; with offset 0, multiplier 1 and
zero 0 the conversion is the identity; and the end-to-end scenario
(`x_increment 1e-3`, `y_multiplier 2`, `y_offset 10`, `y_zero 0.5`, 2500
copies of `12`) yields 2500 converted values `(12-10)*2-0.5 = 7/2` and the
time vector `0, 0.001, 0.002, ...`. -/
theorem c7_conversion_formula_and_scenario :
    (∀ (dev : Device) (ch : String) (m : Measurement) (yo ym yz : ℚ),
      (record dev ch true).2 = .ok m →
      pyFloatS (pyRstrip (dev.resp (yoffQ ch))) = some yo →
      pyFloatS (pyRstrip (dev.resp (ymultQ ch))) = some ym →
      pyFloatS (pyRstrip (dev.resp (yzeroQ ch))) = some yz →
      ∀ i, i < m.data.length →
        ∃ c, pyFloatS ((pySplit (dev.resp "CURVE?")).getD i "") = some c ∧
          m.data.getD i (.pint 0) = .pfloat ((c - yo) * ym - yz)) ∧
    (∀ c yo ym yz : ℚ, yo = 0 → ym = 1 → yz = 0 → (c - yo) * ym - yz = c) ∧
    ((record scenDev "1" true).2 = .ok scenMeas ∧
      scenMeas.data = List.replicate 2500 (.pfloat (7/2)) ∧
      ((12 : ℚ) - 10) * 2 - 1/2 = 7/2 ∧
      ∀ i, i < 2500 → scenMeas.t.getD i 0 = (1/1000 : ℚ) * (i : ℚ)) := by
  refine ⟨?_, ?_, scenario_record, rfl, by norm_num, ?_⟩
  · intro dev ch m yo ym yz hok hyo hym hyz i hi
    obtain ⟨q, yo', ym', yz', hq, hyo', hym', hyz', hd, _, _, _⟩ :=
      record_ok_elim _ _ _ _ hok
    obtain rfl := Option.some.inj (hyo'.symm.trans hyo)
    obtain rfl := Option.some.inj (hym'.symm.trans hym)
    obtain rfl := Option.some.inj (hyz'.symm.trans hyz)
    exact parseData_true_get _ _ _ _ _ hd i hi
  · intro c yo ym yz h1 h2 h3
    subst h1; subst h2; subst h3
    ring
  · intro i hi
    simp only [scenMeas]
    rw [List.getD_eq_getElem?_getD, List.getElem?_map, List.getElem?_range hi]
    rfl

/-- Witness for C7 at the scenario instrument: the first converted sample is
the conversion formula applied to the first parsed curve code. -/
theorem c7_conversion_formula_and_scenario_witness :
    ∃ c, pyFloatS ((pySplit (scenDev.resp "CURVE?")).getD 0 "") = some c ∧
      scenMeas.data.getD 0 (.pint 0) =
        .pfloat ((c - mkRat 10 1) * mkRat 2 1 - mkRat 1 2) :=
  c7_conversion_formula_and_scenario.1 scenDev "1" scenMeas
    (mkRat 10 1) (mkRat 2 1) (mkRat 1 2) scenario_record
    (by decide) (by decide) (by decide) 0
    (lt_of_lt_of_le (by norm_num) (le_of_eq (List.length_replicate 2500 _).symm))

/-- C8: evaluating the three failure paths shows the process exit status is
0 for each of them: the `__main__` guard discards `main`'s return value
(6 for a short identity string, 5 for a failed hardcopy, the channel string
for a bad sample count), so none of the three failures reaches the caller
as a nonzero exit status, contrary to the claim (and to what the companion
GUI, which tests the exit status, relies on). -/
theorem c8_exit_status_zero_on_failures :
    processExit noInstOpts noInstDev = 0 ∧
    (mainRun noInstOpts noInstDev).2 = .ok (.int 6, ⟨false, none, none⟩) ∧
    processExit hcFailOpts hcDev2 = 0 ∧
    (mainRun hcFailOpts hcDev2).2 = .ok (.int 5, ⟨false, none, none⟩) ∧
    processExit badCountOpts badCountDev = 0 ∧
    (mainRun badCountOpts badCountDev).2 = .ok (.str "1", ⟨false, none, none⟩) := by
  exact ⟨by decide, by decide, by decide, by decide, by decide, by decide⟩

/-- C9, counterexample: the `DATA INIT` command is passed to `Tds.set` with a
trailing newline already in the call-site string, so the bytes on the wire
are `DATA INIT` followed by two newlines — not equal to any single
newline-terminated command of the specification's verbatim list. -/
theorem c9_double_newline_counterexample :
    Event.write ("DATA INIT\n" ++ "\n") ∈ (record cexDev "1" false).1 ∧
    ∀ c ∈ specCommands "1", ("DATA INIT\n" ++ "\n") ≠ c ++ "\n" := by decide

/-- C9, amended: every write of the constructor, of any record attempt and
of any hardcopy attempt is a call-site command string followed by one
appended newline; the call-site strings for `DATA INIT`, `DATA:SOURCE CHn`,
`DATA:ENC ASCII`, `DATA:WIDTH 1` and `UNLOCK ALL` already end in a newline,
so exactly those five commands appear with a doubled newline, and all other
commands as exactly one newline-terminated line. -/
theorem c9_amended_wire_format (dev : Device) (ch : String) (cv : Bool) :
    ∀ e ∈ tdsInitEvents dev ++ (record dev ch cv).1 ++ (hardcopy dev).1,
      ∀ s, e = .write s → ∃ c ∈ actualCommands ch, s = c ++ "\n" := by
  intro e he s hes
  subst hes
  rw [List.mem_append, List.mem_append] at he
  rcases he with (he | he) | he
  · simp only [tdsInitEvents, setEvents, queryEvents, List.mem_append,
      List.mem_cons, List.not_mem_nil, or_false, Event.write.injEq] at he
    simp only [reduceCtorEq, false_or, or_false, or_assoc] at he
    rcases he with rfl | rfl | rfl | rfl <;> simp [actualCommands]
  · have hfull : Event.write s ∈ recordPreEvents dev ch ++
        queryEvents dev "CURVE?" ++ setEvents "UNLOCK ALL\n" := by
      rcases record_trace_and_result dev ch cv with ⟨h1, _⟩ | ⟨h1, _⟩ | ⟨h1, _⟩ <;>
        rw [h1] at he
      · exact List.mem_append_left _ (List.mem_append_left _ he)
      · exact List.mem_append_left _ he
      · exact he
    simp only [recordPreEvents, setEvents, queryEvents, List.mem_append,
      List.mem_cons, List.not_mem_nil, or_false, Event.write.injEq] at hfull
    simp only [reduceCtorEq, false_or, or_false, or_assoc] at hfull
    rcases hfull with rfl | rfl | rfl | rfl | rfl | rfl | rfl | rfl | rfl | rfl | rfl | rfl <;>
      simp [actualCommands]
  · rw [hardcopy_trace] at he
    rw [List.mem_append, List.mem_append, List.mem_append] at he
    rcases he with ((he | he) | he) | he
    · simp only [hardcopyPreEvents, setEvents, List.mem_append,
        List.mem_cons, List.not_mem_nil, or_false, Event.write.injEq] at he
      simp only [reduceCtorEq, false_or, or_false, or_assoc] at he
      rcases he with rfl | rfl | rfl | rfl | rfl <;> simp [actualCommands]
    · simp at he
    · rcases drainLoop_events _ _ he with ⟨n, hn⟩ | hn <;> simp at hn
    · simp only [setEvents, List.mem_cons, List.not_mem_nil, or_false,
        Event.write.injEq] at he
      simp only [reduceCtorEq, false_or, or_false] at he
      subst he
      simp [actualCommands]

/-- Witness for the amended C9: the `LOCK ALL` write of a concrete session
is a command of the call-site list followed by one newline. -/
theorem c9_amended_wire_format_witness :
    ∃ c ∈ actualCommands "1", ("LOCK ALL" ++ "\n" : String) = c ++ "\n" :=
  c9_amended_wire_format cexDev "1" false (Event.write ("LOCK ALL" ++ "\n"))
    (by decide) ("LOCK ALL" ++ "\n") rfl

/-- C10: the decoded samples are floats (converted physical values) exactly
when `record` is called with `convert = true` and raw integer codes exactly
when it is called with `convert = false`; `main` passes the `-d` flag as
`convert`, so the `.dat` file always holds converted floats, the `.yaml`
file always raw integer codes, and the conversion mode cannot be chosen
independently of the output format. -/
theorem c10_convert_coupled_to_dflag :
    (∀ (dev : Device) (ch : String) (cv : Bool) (m : Measurement),
      (record dev ch cv).2 = .ok m →
      (cv = true → ∀ x ∈ m.data, ∃ q, x = .pfloat q) ∧
      (cv = false → ∀ x ∈ m.data, ∃ i, x = .pint i)) ∧
    (∀ (opts : Opts) (dev : Device) (r : MainRet) (fs : FilesWritten),
      (mainRun opts dev).2 = .ok (r, fs) →
      (∀ ms, fs.dat = some ms → opts.dflag = true ∧
        ∀ m ∈ ms, ∀ x ∈ m.data, ∃ q, x = .pfloat q) ∧
      (∀ ms, fs.yaml = some ms → opts.dflag = false ∧
        ∀ m ∈ ms, ∀ x ∈ m.data, ∃ i, x = .pint i)) := by
  have hrec : ∀ (dev : Device) (ch : String) (cv : Bool) (m : Measurement),
      (record dev ch cv).2 = .ok m →
      (cv = true → ∀ x ∈ m.data, ∃ q, x = .pfloat q) ∧
      (cv = false → ∀ x ∈ m.data, ∃ i, x = .pint i) := by
    intro dev ch cv m hok
    obtain ⟨q, yo, ym, yz, _, _, _, _, hd, _, _, _⟩ := record_ok_elim _ _ _ _ hok
    constructor
    · rintro rfl
      exact parseData_true_pfloat yo ym yz _ _ hd
    · rintro rfl
      exact parseData_false_pint yo ym yz _ _ hd
  refine ⟨hrec, ?_⟩
  intro opts dev r fs hmain
  obtain ⟨hdat, hyaml⟩ := mainRun_files opts dev r fs hmain
  constructor
  · intro ms hms
    obtain ⟨hdf, hloop⟩ := hdat ms hms
    refine ⟨hdf, fun m hm => ?_⟩
    obtain ⟨⟨c, _, hrc⟩, _⟩ := channelLoop_ok_inl dev opts.dflag _ ms hloop m hm
    exact (hrec dev _ _ m hrc).1 hdf
  · intro ms hms
    obtain ⟨hdf, hloop⟩ := hyaml ms hms
    refine ⟨hdf, fun m hm => ?_⟩
    obtain ⟨⟨c, _, hrc⟩, _⟩ := channelLoop_ok_inl dev opts.dflag _ ms hloop m hm
    exact (hrec dev _ _ m hrc).2 hdf

/-- Witness for C10: the scenario run with `-d` writes the `.dat` file and
its measurements hold only converted float values. -/
theorem c10_convert_coupled_to_dflag_witness :
    scenOpts.dflag = true ∧
      ∀ m ∈ [scenMeas], ∀ x ∈ m.data, ∃ q, x = PyNum.pfloat q :=
  (c10_convert_coupled_to_dflag.2 scenOpts scenDev (.int 0)
    ⟨false, some [scenMeas], none⟩ scen_mainRun).1 [scenMeas] rfl
